import Mathlib

/-!
# Verification of the ai-executive-assistant repository

Two subsystems are embedded here.

* The setup wizard (sources: stores/wizard.ts and components/wizard/SetupWizard.tsx):
  step navigation, hash deep-linking and configuration YAML generation are
  translated directly from the TypeScript source.

* The document ingestion and semantic-indexing pipeline.  The script
  embed_to_qdrant.py that implements it is not part of the repository snapshot
  (only the design note docs/plans/2025-12-11-qdrant-mcp-compatibility-design.md
  and the specification describe it), so the pipeline definitions below are
  modelled from the specification, faithful to its words.
-/

set_option maxHeartbeats 1000000
set_option maxRecDepth 4000

namespace Assistant

/-! ## Setup wizard (translated from stores/wizard.ts and SetupWizard.tsx) -/

inductive Platform where
  | obsidian
  | logseq
  | markdown
  | custom
  deriving DecidableEq

inductive AIProvider where
  | openai
  | vertex
  | anthropic
  | ollama
  | custom
  deriving DecidableEq

/-- The modules record of WizardState in stores/wizard.ts. -/
structure Modules where
  foundation : Bool
  meetingProcessing : Bool
  ragSearch : Bool
  calendar : Bool
  automation : Bool
  deriving DecidableEq

inductive SummaryStyle where
  | concise
  | detailed
  deriving DecidableEq

/-- The preferences record of WizardState in stores/wizard.ts. -/
structure Preferences where
  vaultPath : String
  meetingsFolder : String
  transcriptsFolder : String
  peopleFolder : String
  templatesFolder : String
  summaryStyle : SummaryStyle
  actionItemFormat : String
  deriving DecidableEq

/-- WizardState from stores/wizard.ts; the platform and aiProvider fields are
nullable, modelled with Option. -/
structure WizardState where
  platform : Option Platform
  aiProvider : Option AIProvider
  modules : Modules
  preferences : Preferences
  deriving DecidableEq

/-- defaultState from stores/wizard.ts. -/
def defaultState : WizardState :=
  { platform := none
    aiProvider := none
    modules :=
      { foundation := true
        meetingProcessing := false
        ragSearch := false
        calendar := false
        automation := false }
    preferences :=
      { vaultPath := ("~/Documents/MyVault")
        meetingsFolder := ("Meetings")
        transcriptsFolder := ("Transcripts")
        peopleFolder := ("People")
        templatesFolder := ("Templates")
        summaryStyle := SummaryStyle.concise
        actionItemFormat := ("- [ ] @Owner — Task") } }

/-- The stepMap of the hash deep-link effect in SetupWizard.tsx: a known hash
names a step 1..5, an unknown hash is not in the map. -/
def stepMap (hash : String) : Option Nat :=
  if hash = ("platform") then some 1
  else if hash = ("ai-provider") then some 2
  else if hash = ("modules") then some 3
  else if hash = ("preferences") then some 4
  else if hash = ("generate") then some 5
  else none

/-- nextStep from SetupWizard.tsx: advances only while the step is below 5. -/
def nextStep (step : Nat) : Nat :=
  if step < 5 then step + 1 else step

/-- prevStep from SetupWizard.tsx: retreats only while the step is above 1. -/
def prevStep (step : Nat) : Nat :=
  if step > 1 then step - 1 else step

/-- The hash deep-link effect in SetupWizard.tsx: currentStep is set only when
the hash is in stepMap, otherwise the step is left unchanged. -/
def hashDeepLink (step : Nat) (hash : String) : Nat :=
  match stepMap hash with
  | some n => n
  | none => step

/-- One user-visible operation on the wizard's current step: the two navigation
buttons, a hash deep-link, and resetWizard (which sets the step back to 1). -/
inductive WizardOp where
  | next : WizardOp
  | prev : WizardOp
  | hashLink : String → WizardOp
  | reset : WizardOp

def applyWizardOp (step : Nat) : WizardOp → Nat
  | WizardOp.next => nextStep step
  | WizardOp.prev => prevStep step
  | WizardOp.hashLink h => hashDeepLink step h
  | WizardOp.reset => 1

/-- The current step after a sequence of operations, starting from the initial
value 1 of the currentStep atom in stores/wizard.ts. -/
def runWizardOps (ops : List WizardOp) : Nat :=
  ops.foldl applyWizardOp 1

def boolStr (b : Bool) : String :=
  if b then ("true") else ("false")

def summaryStyleStr : SummaryStyle → String
  | SummaryStyle.concise => ("concise")
  | SummaryStyle.detailed => ("detailed")

/-- The providerSection constant of generateConfigYAML in SetupWizard.tsx: a
conditional chain over the aiProvider field whose final branch emits the
custom-provider section. -/
def providerSection (p : Option AIProvider) : String :=
  if p = some AIProvider.ollama then
    ("ai_provider: ollama\nai_model: llama3.2\nai_endpoint: http://localhost:11434")
  else if p = some AIProvider.openai then
    ("ai_provider: openai\nai_model: gpt-4o-mini\nai_endpoint: https://api.openai.com/v1")
  else if p = some AIProvider.anthropic then
    ("ai_provider: anthropic\nai_model: claude-3-5-sonnet-20241022\nai_endpoint: https://api.anthropic.com")
  else if p = some AIProvider.vertex then
    ("ai_provider: vertex\nai_model: gemini-1.5-flash\nai_endpoint: us-central1-aiplatform.googleapis.com\ngcp_project: your-project-id")
  else
    ("ai_provider: custom\nai_model: your-model\nai_endpoint: http://localhost:8000")

/-- The part of the YAML template of generateConfigYAML before the provider
section; the generated-on date is supplied by the caller since the source reads
the wall clock there. -/
def configHeader (now : String) (state : WizardState) : String :=
  ("# AI Executive Assistant Configuration\n# Generated on ") ++ now ++
  ("\n\n# Vault paths (relative to vault root)\nvault_path: ") ++
  state.preferences.vaultPath ++
  ("\nmeetings_folder: ") ++ state.preferences.meetingsFolder ++
  ("\ntranscripts_folder: ") ++ state.preferences.transcriptsFolder ++
  ("\npeople_folder: ") ++ state.preferences.peopleFolder ++
  ("\ntemplates_folder: ") ++ state.preferences.templatesFolder ++
  ("\n\n# AI Provider\n")

/-- The part of the YAML template of generateConfigYAML after the provider
section. -/
def configFooter (state : WizardState) : String :=
  ("\n\n# Processing preferences\nsummary_style: ") ++
  summaryStyleStr state.preferences.summaryStyle ++
  ("\naction_item_format: \"") ++ state.preferences.actionItemFormat ++
  ("\"\ndate_format: \"%Y-%m-%d\"\n\n# Enabled modules\nmodules:\n  foundation: ") ++
  boolStr state.modules.foundation ++
  ("\n  meeting_processing: ") ++ boolStr state.modules.meetingProcessing ++
  ("\n  rag_search: ") ++ boolStr state.modules.ragSearch ++
  ("\n  calendar: ") ++ boolStr state.modules.calendar ++
  ("\n  automation: ") ++ boolStr state.modules.automation ++ ("\n")

/-- generateConfigYAML from SetupWizard.tsx: the YAML template with the
provider section spliced between header and footer. -/
def generateConfigYAML (now : String) (state : WizardState) : String :=
  configHeader now state ++ providerSection state.aiProvider ++ configFooter state

/-! ## Ingestion pipeline

Modelled from the spec: the implementing script embed_to_qdrant.py is absent
from the repository snapshot, so every definition in this section follows the
specification's description of the pipeline (sections 3, 4, 6 and 7 of the
spec, backed by the qdrant-mcp-compatibility design note). -/

/-- Modelled from the spec: a source document with its path-derived identifier,
raw text, front-matter metadata and last-modified timestamp
(embed_to_qdrant.py's document loader is missing from the snapshot). -/
structure Doc where
  id : String
  text : List Char
  docType : String
  category : String
  title : String
  path : String
  version : String
  people : List String
  tags : List String
  mtime : Nat
  deriving DecidableEq

/-- Modelled from the spec: the content hash (a cryptographic digest of the raw
text) is abstracted as the raw text itself, a collision-free stand-in; the
pipeline only ever compares hashes for equality. -/
def contentHash (text : List Char) : List Char :=
  text

/-- Modelled from the spec: a chunk is a contiguous slice of a document's text
with parent identifier, ordinal index, character span and the slice itself. -/
structure Chunk where
  docId : String
  idx : Nat
  start : Nat
  stop : Nat
  text : List Char
  deriving DecidableEq

/-- Modelled from the spec: overlap is clamped to zero when the chunk size is
smaller than the configured overlap, so chunks never have negative length. -/
def clampedOverlap (chunkSize overlap : Nat) : Nat :=
  if chunkSize < overlap then 0 else overlap

/-- Modelled from the spec: the span computation of the chunker.  Starting at
an offset, the next chunk covers one chunk size (or the rest of the text when
that is shorter) and the following chunk starts overlap characters before the
previous one ended.  The fuel argument bounds the recursion; with a positive
step it is never exhausted.  The whitespace-boundary preference mentioned by
the spec is not modelled: split points are the exact character-budget offsets,
which agrees with the spec's own end-to-end chunking scenario. -/
def chunkSpansAux (len chunkSize step : Nat) : Nat → Nat → List (Nat × Nat)
  | 0, start => if len ≤ start + chunkSize then [(start, len)] else []
  | fuel + 1, start =>
    if len ≤ start + chunkSize then [(start, len)]
    else (start, start + chunkSize) :: chunkSpansAux len chunkSize step fuel (start + step)

/-- Modelled from the spec: all spans of a text of the given length, starting
at offset 0 with fuel that suffices whenever the step is positive. -/
def chunkSpans (len chunkSize overlap : Nat) : List (Nat × Nat) :=
  chunkSpansAux len chunkSize (chunkSize - clampedOverlap chunkSize overlap) (len + 1) 0

/-- Modelled from the spec: materialize spans as chunks of a document, indexed
in order. -/
def spansToChunks (docId : String) (text : List Char) (spans : List (Nat × Nat)) : List Chunk :=
  spans.enum.map (fun p => ⟨docId, p.1, p.2.1, p.2.2, (text.drop p.2.1).take (p.2.2 - p.2.1)⟩)

/-- Modelled from the spec: the chunker contract
chunk(text, chunkSize, overlap) returning the ordered chunk sequence. -/
def chunk (docId : String) (text : List Char) (chunkSize overlap : Nat) : List Chunk :=
  spansToChunks docId text (chunkSpans text.length chunkSize overlap)

/-- The chunking policy of the spec as a relation on span lists: the last chunk
ends at the text length, every earlier chunk covers exactly one chunk size, and
consecutive chunks are one step (chunk size minus clamped overlap) apart.  Used
to state that chunk boundaries are a function of (text, chunk size, overlap). -/
inductive SpansRel (len chunkSize step : Nat) : Nat → List (Nat × Nat) → Prop where
  | last (start : Nat) : len ≤ start + chunkSize →
      SpansRel len chunkSize step start [(start, len)]
  | more (start : Nat) (rest : List (Nat × Nat)) : start + chunkSize < len →
      SpansRel len chunkSize step (start + step) rest →
      SpansRel len chunkSize step start ((start, start + chunkSize) :: rest)

/-- A chunk list is a chunking of the text exactly when its spans follow the
chunking policy from offset 0 and its chunks are those spans materialized. -/
def ChunkingRel (docId : String) (text : List Char) (chunkSize overlap : Nat)
    (chunks : List Chunk) : Prop :=
  ∃ spans,
    SpansRel text.length chunkSize (chunkSize - clampedOverlap chunkSize overlap) 0 spans ∧
    chunks = spansToChunks docId text spans

/-- Modelled from the spec: payload values of an embedding record (strings,
numbers, booleans and string lists). -/
inductive PayloadValue where
  | str : String → PayloadValue
  | num : Int → PayloadValue
  | bool : Bool → PayloadValue
  | strList : List String → PayloadValue
  deriving DecidableEq

/-- Modelled from the spec: an embedding record (a point of the vector store)
with its deterministic identifier, the named-vector key, the vector and the
payload as an ordered field list. -/
structure Record where
  pointId : String
  vectorKey : String
  vector : List Int
  payload : List (String × PayloadValue)
  deriving DecidableEq

/-- Modelled from the spec: the embedding model identifier with every
non-alphanumeric character normalized to an underscore (hyphens to
underscores), used as the named-vector key. -/
def normalizeModelName (model : String) : String :=
  String.mk (model.toList.map (fun c => if c.isAlphanum then c else '_'))

/-- The payload field names of the vector-store wire contract, in order. -/
def payloadFields : List String :=
  [("document"), ("type"), ("category"), ("title"), ("path"), ("doc_id"),
   ("doc_version"), ("chunk_idx"), ("chunk_chars"), ("people"), ("tags"),
   ("is_active"), ("ingested_at"), ("source_mtime"), ("content_sha")]

/-- Modelled from the spec: one embedding record for one chunk, with point
identifier derived from (document identifier, chunk index), the vector under
the normalized model-name key, and the wire-contract payload. -/
def buildRecord (model : String) (now : Nat) (d : Doc) (c : Chunk) (vec : List Int) : Record :=
  { pointId := d.id ++ (":") ++ toString c.idx
    vectorKey := normalizeModelName model
    vector := vec
    payload :=
      [(("document"), PayloadValue.str (String.mk c.text)),
       (("type"), PayloadValue.str d.docType),
       (("category"), PayloadValue.str d.category),
       (("title"), PayloadValue.str d.title),
       (("path"), PayloadValue.str d.path),
       (("doc_id"), PayloadValue.str d.id),
       (("doc_version"), PayloadValue.str d.version),
       (("chunk_idx"), PayloadValue.num c.idx),
       (("chunk_chars"), PayloadValue.num c.text.length),
       (("people"), PayloadValue.strList d.people),
       (("tags"), PayloadValue.strList d.tags),
       (("is_active"), PayloadValue.bool true),
       (("ingested_at"), PayloadValue.num now),
       (("source_mtime"), PayloadValue.num d.mtime),
       (("content_sha"), PayloadValue.str (String.mk (contentHash d.text)))] }

/-- Modelled from the spec: the records of a document are its chunks paired
with their vectors, one record per chunk. -/
def buildRecords (model : String) (now : Nat) (d : Doc) (chunks : List Chunk)
    (vecs : List (List Int)) : List Record :=
  (chunks.zip vecs).map (fun p => buildRecord model now d p.1 p.2)

/-- Modelled from the spec: the error taxonomy of the pipeline.  The first
three are per-document stage failures; the last two are run-level failures. -/
inductive PErr where
  | chunkError
  | embedError
  | upsertError
  | storeUnavailable
  | schemaIncompatible
  deriving DecidableEq

/-- Run-level errors halt further processing; per-document errors do not. -/
def PErr.runLevel : PErr → Bool
  | PErr.storeUnavailable => true
  | PErr.schemaIncompatible => true
  | _ => false

/-- Modelled from the spec: the per-document outcome recorded in the run
report. -/
inductive DocOutcome where
  | processed
  | skipped
  | failed : PErr → DocOutcome
  deriving DecidableEq

def DocOutcome.isProcessed : DocOutcome → Bool
  | DocOutcome.processed => true
  | _ => false

def DocOutcome.isSkipped : DocOutcome → Bool
  | DocOutcome.skipped => true
  | _ => false

def DocOutcome.isFailed : DocOutcome → Bool
  | DocOutcome.failed _ => true
  | _ => false

/-- An external call observable during ingestion of a document: one batched
embedding-provider call or one vector-store upsert call. -/
inductive Event where
  | embedCall : String → Event
  | upsertCall : String → Event
  deriving DecidableEq

/-- Modelled from the spec: the shared mutable state of the pipeline, the
persistent fingerprint store (document identifier to last-ingested content
hash) and the vector store contents (point identifier to record). -/
structure PipelineState where
  fingerprints : List (String × List Char)
  store : List (String × Record)
  deriving DecidableEq

/-- Modelled from the spec: shouldReingest(documentId, currentHash) of the
fingerprint store: true on first sight of the identifier, true on any hash
mismatch, false exactly when the stored fingerprint equals the current hash. -/
def shouldReingest (fingerprints : List (String × List Char)) (docId : String)
    (currentHash : List Char) : Bool :=
  match fingerprints.lookup docId with
  | none => true
  | some old => old != currentHash

/-- Modelled from the spec: recordIngested(documentId, hash) of the fingerprint
store: replaces the entry for the document. -/
def recordIngested (fingerprints : List (String × List Char)) (docId : String)
    (hash : List Char) : List (String × List Char) :=
  (docId, hash) :: fingerprints.filter (fun p => p.1 != docId)

/-- Modelled from the spec: the upsert overwrites points by identifier rather
than duplicating them. -/
def upsertPoints (store : List (String × Record)) (records : List Record) :
    List (String × Record) :=
  records.foldl (fun s r => (r.pointId, r) :: s.filter (fun p => p.1 != r.pointId)) store

/-- Modelled from the spec: the pipeline's external collaborators, passed in as
explicit dependencies: the embedding model identifier, the ingestion timestamp,
the document chunker (which may fail with a parse or chunk error), the
embedding provider and the vector-store upsert outcome. -/
structure Env where
  model : String
  now : Nat
  chunkDoc : Doc → Except PErr (List Chunk)
  embed : List (List Char) → Except PErr (List (List Int))
  upsertOutcome : List Record → Option PErr

/-- Modelled from the spec: ingestion of a single document by the orchestrator.
The content hash is compared with the stored fingerprint; unchanged documents
are skipped without any provider or store call unless force is set; otherwise
the document is chunked, embedded and upserted, and only after a successful
upsert is the fingerprint recorded.  Any stage failure leaves the state
untouched and yields a failed outcome.  The returned event list records the
external calls made for the document. -/
def ingestDoc (env : Env) (force : Bool) (st : PipelineState) (d : Doc) :
    PipelineState × DocOutcome × List Event :=
  if force = false ∧ shouldReingest st.fingerprints d.id (contentHash d.text) = false then
    (st, DocOutcome.skipped, [])
  else
    match env.chunkDoc d with
    | Except.error e => (st, DocOutcome.failed e, [])
    | Except.ok chunks =>
      match env.embed (chunks.map Chunk.text) with
      | Except.error e => (st, DocOutcome.failed e, [Event.embedCall d.id])
      | Except.ok vecs =>
        match env.upsertOutcome (buildRecords env.model env.now d chunks vecs) with
        | some e => (st, DocOutcome.failed e, [Event.embedCall d.id, Event.upsertCall d.id])
        | none =>
          (⟨recordIngested st.fingerprints d.id (contentHash d.text),
            upsertPoints st.store (buildRecords env.model env.now d chunks vecs)⟩,
           DocOutcome.processed, [Event.embedCall d.id, Event.upsertCall d.id])

/-- The result of a multi-document run: final state, per-document outcomes in
order, and all external calls. -/
structure RunResult where
  state : PipelineState
  outcomes : List (String × DocOutcome)
  events : List Event
  deriving DecidableEq

/-- A run-level failure outcome halts the run. -/
def haltsRun : DocOutcome → Bool
  | DocOutcome.failed e => e.runLevel
  | _ => false

/-- Modelled from the spec: ingest(documents, config) of the orchestrator.
Documents are processed in order; a per-document failure is recorded and
processing continues; a run-level failure (store unavailable, schema
incompatible) halts further processing. -/
def ingest (env : Env) (force : Bool) (st : PipelineState) (docs : List Doc) : RunResult :=
  match docs with
  | [] => ⟨st, [], []⟩
  | d :: ds =>
    let r1 := ingestDoc env force st d
    if haltsRun r1.2.1 then
      ⟨r1.1, [(d.id, r1.2.1)], r1.2.2⟩
    else
      let rest := ingest env force r1.1 ds
      ⟨rest.state, (d.id, r1.2.1) :: rest.outcomes, r1.2.2 ++ rest.events⟩

/-- The run report of the spec: processed, skipped and failed counts. -/
structure Report where
  processed : Nat
  skipped : Nat
  failed : Nat
  deriving DecidableEq

/-- The counts of a run report from the per-document outcomes. -/
def report (outcomes : List (String × DocOutcome)) : Report :=
  ⟨outcomes.countP (fun p => p.2.isProcessed),
   outcomes.countP (fun p => p.2.isSkipped),
   outcomes.countP (fun p => p.2.isFailed)⟩

/-- Modelled from the spec: the declared configuration of the vector
collection: vector name (none for the unnamed-vector mode), dimensionality and
distance metric. -/
structure CollectionSchema where
  vectorName : Option String
  dimension : Nat
  distance : String
  deriving DecidableEq

/-- Modelled from the spec: an existing collection, its schema together with
its stored points. -/
structure CollectionState where
  schema : CollectionSchema
  points : List (String × Record)
  deriving DecidableEq

/-- The outcome of ensureCollection in the spec's collection-manager
contract. -/
inductive EnsureOutcome where
  | ready
  | recreated
  | incompatible
  deriving DecidableEq

/-- Two schemas are compatible when they agree on vector name, dimensionality
and vector-naming mode (the mode is carried by the Option on the name). -/
def schemaCompatible (existing requested : CollectionSchema) : Bool :=
  existing.vectorName == requested.vectorName && existing.dimension == requested.dimension

/-- Modelled from the spec: ensureCollection of the collection manager.  A
missing collection is created; a compatible one is kept; an incompatible one is
destructively recreated only under a caller-supplied confirmation flag and is
otherwise reported incompatible and left untouched. -/
def ensureCollection (existing : Option CollectionState) (requested : CollectionSchema)
    (confirmRecreate : Bool) : EnsureOutcome × Option CollectionState :=
  match existing with
  | none => (EnsureOutcome.ready, some ⟨requested, []⟩)
  | some c =>
    if schemaCompatible c.schema requested then
      (EnsureOutcome.ready, some c)
    else if confirmRecreate then
      (EnsureOutcome.recreated, some ⟨requested, []⟩)
    else
      (EnsureOutcome.incompatible, some c)

/-! ## Concrete inputs used by witnesses -/

/-- A small two-character document. -/
def exDocSmall : Doc :=
  ⟨("d1"), ['h', 'i'], ("note"), ("cat"), ("t"), ("p"), ("v1"), [], [], 0⟩

/-- A 3,600-character text for the end-to-end chunking scenario. -/
def exText3600 : List Char :=
  List.replicate 3600 'a'

/-- The document of the end-to-end chunking scenario. -/
def exDoc3600 : Doc :=
  ⟨("doc"), exText3600, ("note"), ("cat"), ("t"), ("p"), ("v1"), [], [], 0⟩

/-- An eight-character text for the determinism witness. -/
def exTextSmall : List Char :=
  ['a', 'b', 'c', 'd', 'e', 'f', 'g', 'h']

/-- An environment in which every stage succeeds. -/
def exEnv : Env :=
  { model := ("text-embedding-004")
    now := 7
    chunkDoc := fun d => Except.ok (chunk d.id d.text 1200 200)
    embed := fun texts => Except.ok (texts.map (fun _ => [0, 1]))
    upsertOutcome := fun _ => none }

/-- An environment whose embedding provider always fails. -/
def exEnvEmbedFail : Env :=
  { exEnv with embed := fun _ => Except.error PErr.embedError }

/-- An environment whose vector store is unreachable at upsert time. -/
def exEnvStoreDown : Env :=
  { exEnv with upsertOutcome := fun _ => some PErr.storeUnavailable }

/-- One stored point of the example collection. -/
def exPoint : Record :=
  ⟨("p1"), ("text_embedding_004"), [0], []⟩

/-- An existing collection in the unnamed-vector mode with 1536 dimensions and
one stored point. -/
def exColl : CollectionState :=
  ⟨⟨none, 1536, ("Cosine")⟩, [(("p1"), exPoint)]⟩

/-- A requested schema: a 768-dimension named vector. -/
def exRequested : CollectionSchema :=
  ⟨some ("text_embedding_004"), 768, ("Cosine")⟩

/-- A single chunk of the small document. -/
def exChunkW : Chunk :=
  ⟨("d1"), 0, 0, 2, ['h', 'i']⟩

/-- The record built for the single chunk of the small document. -/
def exRecordW : Record :=
  buildRecord ("text-embedding-004") 7 exDocSmall exChunkW [0, 1]

/-! ## Wizard lemmas -/

theorem stepMap_mem_range (hash : String) (n : Nat) (h : stepMap hash = some n) :
    1 ≤ n ∧ n ≤ 5 := by
  unfold stepMap at h
  repeat' split at h
  all_goals simp_all
  all_goals omega

theorem applyWizardOp_range (step : Nat) (op : WizardOp) (h1 : 1 ≤ step) (h5 : step ≤ 5) :
    1 ≤ applyWizardOp step op ∧ applyWizardOp step op ≤ 5 := by
  cases op with
  | next => simp only [applyWizardOp, nextStep]; split <;> omega
  | prev => simp only [applyWizardOp, prevStep]; split <;> omega
  | hashLink hash =>
    simp only [applyWizardOp, hashDeepLink]
    cases hm : stepMap hash with
    | none => simp only []; exact ⟨h1, h5⟩
    | some n => simp only []; exact stepMap_mem_range hash n hm
  | reset => simp only [applyWizardOp]; omega

theorem foldl_applyWizardOp_range (ops : List WizardOp) :
    ∀ step : Nat, 1 ≤ step → step ≤ 5 →
      1 ≤ ops.foldl applyWizardOp step ∧ ops.foldl applyWizardOp step ≤ 5 := by
  induction ops with
  | nil => intro step h1 h5; exact ⟨h1, h5⟩
  | cons op rest ih =>
    intro step h1 h5
    have h := applyWizardOp_range step op h1 h5
    exact ih (applyWizardOp step op) h.1 h.2

/-- Claim C9: the setup wizard's current step always stays within 1..5:
starting from the initial value 1, any sequence of nextStep, prevStep, hash
deep-link and reset operations leaves the step in the range 1 to 5. -/
theorem wizard_step_in_range (ops : List WizardOp) :
    1 ≤ runWizardOps ops ∧ runWizardOps ops ≤ 5 :=
  foldl_applyWizardOp_range ops 1 (by omega) (by omega)

/-- Claim C10: whenever the wizard state's aiProvider is none of ollama,
openai, anthropic or vertex — including the initial null value —
generateConfigYAML emits the custom provider section with placeholder model
and endpoint, so an unset provider is serialized as custom rather than
rejected or omitted. -/
theorem unset_provider_serializes_custom (now : String) (state : WizardState)
    (h1 : state.aiProvider ≠ some AIProvider.ollama)
    (h2 : state.aiProvider ≠ some AIProvider.openai)
    (h3 : state.aiProvider ≠ some AIProvider.anthropic)
    (h4 : state.aiProvider ≠ some AIProvider.vertex) :
    providerSection state.aiProvider =
      ("ai_provider: custom\nai_model: your-model\nai_endpoint: http://localhost:8000") ∧
    ∃ pre post, generateConfigYAML now state =
      pre ++
      ("ai_provider: custom\nai_model: your-model\nai_endpoint: http://localhost:8000") ++
      post := by
  have hps : providerSection state.aiProvider =
      ("ai_provider: custom\nai_model: your-model\nai_endpoint: http://localhost:8000") := by
    unfold providerSection
    rw [if_neg h1, if_neg h2, if_neg h3, if_neg h4]
  refine ⟨hps, configHeader now state, configFooter state, ?_⟩
  rw [generateConfigYAML, hps]

/-- Witness for claim C10 at the default wizard state, whose aiProvider is the
initial null value. -/
theorem unset_provider_serializes_custom_witness :
    providerSection defaultState.aiProvider =
      ("ai_provider: custom\nai_model: your-model\nai_endpoint: http://localhost:8000") ∧
    ∃ pre post, generateConfigYAML ("2025-01-01T00:00:00.000Z") defaultState =
      pre ++
      ("ai_provider: custom\nai_model: your-model\nai_endpoint: http://localhost:8000") ++
      post :=
  unset_provider_serializes_custom ("2025-01-01T00:00:00.000Z") defaultState
    (by decide) (by decide) (by decide) (by decide)

/-! ## Chunker lemmas -/

theorem SpansRel.unique (len chunkSize step : Nat) :
    ∀ (start : Nat) (l1 l2 : List (Nat × Nat)),
      SpansRel len chunkSize step start l1 → SpansRel len chunkSize step start l2 →
      l1 = l2 := by
  intro start l1 l2 h1 h2
  induction h1 generalizing l2 with
  | last s hle =>
    cases h2 with
    | last => rfl
    | more s2 r2 hlt _ => omega
  | more s r hlt hrec ih =>
    cases h2 with
    | last _ hle => omega
    | more _ r2 hlt2 hrec2 => rw [ih r2 hrec2]

theorem chunkSpansAux_sound (len chunkSize step : Nat) :
    ∀ (fuel start : Nat), len ≤ start + chunkSize + fuel * step →
      SpansRel len chunkSize step start (chunkSpansAux len chunkSize step fuel start) := by
  intro fuel
  induction fuel with
  | zero =>
    intro start hle
    rw [chunkSpansAux, if_pos (by omega)]
    exact SpansRel.last start (by omega)
  | succ n ih =>
    intro start hle
    rw [chunkSpansAux]
    by_cases hc : len ≤ start + chunkSize
    · rw [if_pos hc]
      exact SpansRel.last start hc
    · rw [if_neg hc]
      refine SpansRel.more start _ (by omega) (ih (start + step) ?_)
      have : (n + 1) * step = n * step + step := by ring
      omega

theorem chunkSpans_sound (len chunkSize overlap : Nat)
    (hstep : 0 < chunkSize - clampedOverlap chunkSize overlap) :
    SpansRel len chunkSize (chunkSize - clampedOverlap chunkSize overlap) 0
      (chunkSpans len chunkSize overlap) := by
  apply chunkSpansAux_sound
  have h1 : len + 1 ≤ (len + 1) * (chunkSize - clampedOverlap chunkSize overlap) := by
    calc len + 1 = (len + 1) * 1 := by ring
    _ ≤ (len + 1) * (chunkSize - clampedOverlap chunkSize overlap) :=
      Nat.mul_le_mul_left _ hstep
  omega

theorem chunk_sound (docId : String) (text : List Char) (chunkSize overlap : Nat)
    (hstep : 0 < chunkSize - clampedOverlap chunkSize overlap) :
    ChunkingRel docId text chunkSize overlap (chunk docId text chunkSize overlap) :=
  ⟨chunkSpans text.length chunkSize overlap,
   chunkSpans_sound text.length chunkSize overlap hstep, rfl⟩

/-- Claim C2: chunk boundaries are a deterministic pure function of (document
text, chunk size, overlap): any two chunk sequences satisfying the chunking
policy for the same text and configuration are identical, chunk for chunk and
in the same order. -/
theorem chunking_deterministic (docId : String) (text : List Char)
    (chunkSize overlap : Nat) (c1 c2 : List Chunk)
    (h1 : ChunkingRel docId text chunkSize overlap c1)
    (h2 : ChunkingRel docId text chunkSize overlap c2) : c1 = c2 := by
  obtain ⟨s1, hs1, rfl⟩ := h1
  obtain ⟨s2, hs2, rfl⟩ := h2
  rw [SpansRel.unique text.length chunkSize _ 0 s1 s2 hs1 hs2]

/-- Witness for claim C2: on an eight-character text with chunk size 4 and
overlap 1, the chunker's output coincides with an independently constructed
chunking of the same text. -/
theorem chunking_deterministic_witness :
    chunk ("doc") exTextSmall 4 1 =
      spansToChunks ("doc") exTextSmall [(0, 4), (3, 7), (6, 8)] :=
  chunking_deterministic ("doc") exTextSmall 4 1 _ _
    (chunk_sound ("doc") exTextSmall 4 1 (by decide))
    ⟨[(0, 4), (3, 7), (6, 8)],
     SpansRel.more 0 _ (by decide) (SpansRel.more 3 _ (by decide)
       (SpansRel.last 6 (by decide))), rfl⟩

/-- Claim C3: chunking a 3,600-character document with chunk size 1,200 and
overlap 200 produces exactly 4 chunks with character spans [0,1200), [1000,2200),
[2000,3200), [3000,3600), each yielding one point whose identifier pairs the
document identifier with the chunk index 0 through 3. -/
theorem end_to_end_3600_chunking :
    chunkSpans 3600 1200 200 = [(0, 1200), (1000, 2200), (2000, 3200), (3000, 3600)] ∧
    (chunk ("doc") exText3600 1200 200).length = 4 ∧
    (chunk ("doc") exText3600 1200 200).map (fun c => (c.start, c.stop)) =
      [(0, 1200), (1000, 2200), (2000, 3200), (3000, 3600)] ∧
    (buildRecords ("text-embedding-004") 0 exDoc3600
        (chunk ("doc") exText3600 1200 200) (List.replicate 4 [])).map Record.pointId =
      [("doc:0"), ("doc:1"), ("doc:2"), ("doc:3")] := by
  have hlen : exText3600.length = 3600 := by
    rw [exText3600, List.length_replicate]
  have hs : chunkSpans 3600 1200 200 =
      [(0, 1200), (1000, 2200), (2000, 3200), (3000, 3600)] := by decide
  have hc : chunk ("doc") exText3600 1200 200 =
      spansToChunks ("doc") exText3600
        [(0, 1200), (1000, 2200), (2000, 3200), (3000, 3600)] := by
    rw [chunk, hlen, hs]
  refine ⟨hs, ?_, ?_, ?_⟩
  · rw [hc]; rfl
  · rw [hc]; rfl
  · rw [hc]; rfl

/-! ## Fingerprint-store lemmas -/

theorem lookup_recordIngested (fps : List (String × List Char)) (docId : String)
    (hash : List Char) : (recordIngested fps docId hash).lookup docId = some hash := by
  simp [recordIngested, List.lookup]

theorem shouldReingest_false_lookup (fps : List (String × List Char)) (docId : String)
    (hash : List Char) (h : shouldReingest fps docId hash = false) :
    fps.lookup docId = some hash := by
  unfold shouldReingest at h
  cases hl : fps.lookup docId with
  | none => rw [hl] at h; simp at h
  | some old =>
    rw [hl] at h
    simp only [bne_eq_false_iff_eq] at h
    rw [h]

theorem shouldReingest_of_lookup (fps : List (String × List Char)) (docId : String)
    (hash : List Char) (h : fps.lookup docId = some hash) :
    shouldReingest fps docId hash = false := by
  unfold shouldReingest
  rw [h]
  simp

/-! ## Per-document orchestrator lemmas -/

theorem ingestDoc_failed_state (env : Env) (force : Bool) (st : PipelineState) (d : Doc)
    (e : PErr) (st' : PipelineState) (evs : List Event)
    (h : ingestDoc env force st d = (st', DocOutcome.failed e, evs)) : st' = st := by
  unfold ingestDoc at h
  split at h
  · simp only [Prod.mk.injEq] at h
    exact absurd h.2.1 (by simp)
  · split at h
    · simp only [Prod.mk.injEq] at h; exact h.1.symm
    · split at h
      · simp only [Prod.mk.injEq] at h; exact h.1.symm
      · split at h
        · simp only [Prod.mk.injEq] at h; exact h.1.symm
        · simp only [Prod.mk.injEq] at h
          exact absurd h.2.1 (by simp)

theorem ingestDoc_processed_fingerprint (env : Env) (force : Bool) (st : PipelineState)
    (d : Doc) (st' : PipelineState) (evs : List Event)
    (h : ingestDoc env force st d = (st', DocOutcome.processed, evs)) :
    st'.fingerprints.lookup d.id = some (contentHash d.text) := by
  unfold ingestDoc at h
  split at h
  · simp only [Prod.mk.injEq] at h
    exact absurd h.2.1 (by simp)
  · split at h
    · simp only [Prod.mk.injEq] at h; exact absurd h.2.1 (by simp)
    · split at h
      · simp only [Prod.mk.injEq] at h; exact absurd h.2.1 (by simp)
      · split at h
        · simp only [Prod.mk.injEq] at h; exact absurd h.2.1 (by simp)
        · simp only [Prod.mk.injEq] at h
          rw [← h.1]
          exact lookup_recordIngested st.fingerprints d.id (contentHash d.text)

theorem ingestDoc_skipped_prior (env : Env) (force : Bool) (st : PipelineState) (d : Doc)
    (st' : PipelineState) (evs : List Event)
    (h : ingestDoc env force st d = (st', DocOutcome.skipped, evs)) :
    st' = st ∧ st.fingerprints.lookup d.id = some (contentHash d.text) := by
  unfold ingestDoc at h
  split at h
  next hcond =>
    simp only [Prod.mk.injEq] at h
    exact ⟨h.1.symm, shouldReingest_false_lookup _ _ _ hcond.2⟩
  next hcond =>
    split at h
    · simp only [Prod.mk.injEq] at h; exact absurd h.2.1 (by simp)
    · split at h
      · simp only [Prod.mk.injEq] at h; exact absurd h.2.1 (by simp)
      · split at h
        · simp only [Prod.mk.injEq] at h; exact absurd h.2.1 (by simp)
        · simp only [Prod.mk.injEq] at h; exact absurd h.2.1 (by simp)

theorem ingest_single (env : Env) (force : Bool) (st : PipelineState) (d : Doc)
    (st1 : PipelineState) (out : DocOutcome) (evs : List Event)
    (h : ingestDoc env force st d = (st1, out, evs)) :
    ingest env force st [d] = ⟨st1, [(d.id, out)], evs⟩ := by
  simp only [ingest, h]
  split
  · rfl
  · simp [ingest]

/-! ## Pipeline claim theorems -/

/-- Claim C5: if shouldReingest is false for a document (stored fingerprint
equals the current content hash) and force is not set, the orchestrator makes
no embedding-provider call and no vector-store call for that document, leaves
the state untouched and marks the document skipped. -/
theorem skip_no_provider_calls (env : Env) (st : PipelineState) (d : Doc)
    (h : shouldReingest st.fingerprints d.id (contentHash d.text) = false) :
    ingestDoc env false st d = (st, DocOutcome.skipped, []) := by
  unfold ingestDoc
  rw [if_pos ⟨rfl, h⟩]

/-- Witness for claim C5: a document whose fingerprint is already stored is
skipped without events. -/
theorem skip_no_provider_calls_witness :
    ingestDoc exEnv false ⟨[(("d1"), ['h', 'i'])], []⟩ exDocSmall =
      (⟨[(("d1"), ['h', 'i'])], []⟩, DocOutcome.skipped, []) :=
  skip_no_provider_calls exEnv ⟨[(("d1"), ['h', 'i'])], []⟩ exDocSmall (by decide)

/-- Claim C4: the fingerprint entry of a document is updated only after its
upsert succeeds: any stage failure leaves the whole pipeline state (fingerprint
store and vector store) in its prior state for retry, and a processed outcome
has the fingerprint committed to the document's current content hash. -/
theorem fingerprint_updated_only_after_upsert (env : Env) (force : Bool)
    (st : PipelineState) (d : Doc) (st' : PipelineState) (out : DocOutcome)
    (evs : List Event) (h : ingestDoc env force st d = (st', out, evs)) :
    (∀ e, out = DocOutcome.failed e → st' = st) ∧
    (out = DocOutcome.processed →
      st'.fingerprints.lookup d.id = some (contentHash d.text)) := by
  constructor
  · intro e he
    exact ingestDoc_failed_state env force st d e st' evs (he ▸ h)
  · intro hp
    exact ingestDoc_processed_fingerprint env force st d st' evs (hp ▸ h)

/-- Witness for claim C4 at a failing embedding provider: the state is left in
its prior state. -/
theorem fingerprint_updated_only_after_upsert_witness :
    (∀ e, DocOutcome.failed PErr.embedError = DocOutcome.failed e →
      (⟨[], []⟩ : PipelineState) = ⟨[], []⟩) ∧
    (DocOutcome.failed PErr.embedError = DocOutcome.processed →
      (⟨[], []⟩ : PipelineState).fingerprints.lookup exDocSmall.id =
        some (contentHash exDocSmall.text)) :=
  fingerprint_updated_only_after_upsert exEnvEmbedFail true ⟨[], []⟩ exDocSmall
    ⟨[], []⟩ (DocOutcome.failed PErr.embedError) [Event.embedCall exDocSmall.id]
    (by decide)

/-- Claim C1: re-running ingestion on unchanged content without force is a
no-op on the vector store: after a first single-document run with no failure,
a second run (under any environment) leaves the state unchanged, performs no
external call, and reports processed 0, skipped 1, failed 0. -/
theorem reingestion_idempotent (env env' : Env) (st : PipelineState) (d : Doc)
    (h : (report (ingest env false st [d]).outcomes).failed = 0) :
    (ingest env' false (ingest env false st [d]).state [d]).state =
      (ingest env false st [d]).state ∧
    (ingest env' false (ingest env false st [d]).state [d]).events = [] ∧
    report (ingest env' false (ingest env false st [d]).state [d]).outcomes =
      ⟨0, 1, 0⟩ := by
  rcases hout : ingestDoc env false st d with ⟨st1, out, evs⟩
  have h1 := ingest_single env false st d st1 out evs hout
  rw [h1] at h ⊢
  have hlk : st1.fingerprints.lookup d.id = some (contentHash d.text) := by
    cases out with
    | processed => exact ingestDoc_processed_fingerprint env false st d st1 evs hout
    | skipped =>
      have hsp := ingestDoc_skipped_prior env false st d st1 evs hout
      rw [hsp.1]
      exact hsp.2
    | failed e => simp [report, DocOutcome.isFailed] at h
  have hskip := skip_no_provider_calls env' st1 d
    (shouldReingest_of_lookup st1.fingerprints d.id (contentHash d.text) hlk)
  have h2 := ingest_single env' false st1 d st1 DocOutcome.skipped [] hskip
  rw [h2]
  refine ⟨rfl, rfl, ?_⟩
  rfl

/-- Witness for claim C1: a fresh document ingested under a fully succeeding
environment, then re-ingested. -/
theorem reingestion_idempotent_witness :
    (report (ingest exEnv false ⟨[], []⟩ [exDocSmall]).outcomes).failed = 0 ∧
    ((ingest exEnv false (ingest exEnv false ⟨[], []⟩ [exDocSmall]).state [exDocSmall]).state =
      (ingest exEnv false ⟨[], []⟩ [exDocSmall]).state ∧
    (ingest exEnv false (ingest exEnv false ⟨[], []⟩ [exDocSmall]).state [exDocSmall]).events = [] ∧
    report (ingest exEnv false (ingest exEnv false ⟨[], []⟩ [exDocSmall]).state [exDocSmall]).outcomes =
      ⟨0, 1, 0⟩) :=
  ⟨by decide, reingestion_idempotent exEnv exEnv ⟨[], []⟩ exDocSmall (by decide)⟩

/-- Claim C8: in a multi-document run a per-document failure is recorded as a
failed outcome and does not abort the remaining documents, which are processed
from the unchanged state; a run-level failure (store unavailable or schema
incompatible) halts further processing while leaving the already-recorded
fingerprints intact. -/
theorem per_document_failure_isolation (env : Env) (force : Bool) (st : PipelineState)
    (d : Doc) (ds : List Doc) (e : PErr) (st' : PipelineState) (evs : List Event)
    (h : ingestDoc env force st d = (st', DocOutcome.failed e, evs)) :
    st' = st ∧
    (e.runLevel = false →
      ingest env force st (d :: ds) =
        ⟨(ingest env force st ds).state,
         (d.id, DocOutcome.failed e) :: (ingest env force st ds).outcomes,
         evs ++ (ingest env force st ds).events⟩) ∧
    (e.runLevel = true →
      ingest env force st (d :: ds) = ⟨st, [(d.id, DocOutcome.failed e)], evs⟩) := by
  have hst : st' = st := ingestDoc_failed_state env force st d e st' evs h
  subst hst
  refine ⟨rfl, ?_, ?_⟩
  · intro hrl
    simp [ingest, h, haltsRun, hrl]
  · intro hrl
    simp [ingest, h, haltsRun, hrl]

/-- Witness for claim C8 at a failing embedding provider (a per-document
failure) on a single-document run. -/
theorem per_document_failure_isolation_witness :
    (⟨[], []⟩ : PipelineState) = ⟨[], []⟩ ∧
    (PErr.runLevel PErr.embedError = false →
      ingest exEnvEmbedFail true ⟨[], []⟩ [exDocSmall] =
        ⟨(ingest exEnvEmbedFail true ⟨[], []⟩ []).state,
         (exDocSmall.id, DocOutcome.failed PErr.embedError) ::
           (ingest exEnvEmbedFail true ⟨[], []⟩ []).outcomes,
         [Event.embedCall exDocSmall.id] ++ (ingest exEnvEmbedFail true ⟨[], []⟩ []).events⟩) ∧
    (PErr.runLevel PErr.embedError = true →
      ingest exEnvEmbedFail true ⟨[], []⟩ [exDocSmall] =
        ⟨⟨[], []⟩, [(exDocSmall.id, DocOutcome.failed PErr.embedError)],
         [Event.embedCall exDocSmall.id]⟩) :=
  per_document_failure_isolation exEnvEmbedFail true ⟨[], []⟩ exDocSmall []
    PErr.embedError ⟨[], []⟩ [Event.embedCall exDocSmall.id] (by decide)

/-- Claim C6: an existing collection whose schema differs from the requested
configuration in vector name, dimensionality or vector-naming mode is reported
incompatible by ensureCollection, which performs no destructive action — the
collection and its points are returned untouched — when no caller-supplied
confirmation flag authorizes the destructive recreate. -/
theorem incompatible_schema_no_destruction (c : CollectionState)
    (requested : CollectionSchema) (h : schemaCompatible c.schema requested = false) :
    ensureCollection (some c) requested false = (EnsureOutcome.incompatible, some c) := by
  simp [ensureCollection, h]

/-- Witness for claim C6: the spec's example, a 768-dimension named vector
requested against an existing 1536-dimension unnamed-vector collection. -/
theorem incompatible_schema_no_destruction_witness :
    ensureCollection (some exColl) exRequested false =
      (EnsureOutcome.incompatible, some exColl) :=
  incompatible_schema_no_destruction exColl exRequested (by decide)

/-- Claim C7: every record built for upsert carries its vector under the named
key obtained from the embedding model identifier by normalizing
non-alphanumeric characters (hyphens to underscores), and a payload whose
fields are exactly document, type, category, title, path, doc_id, doc_version,
chunk_idx, chunk_chars, people, tags, is_active, ingested_at, source_mtime and
content_sha, with the chunk text stored under document. -/
theorem upserted_point_shape (model : String) (now : Nat) (d : Doc)
    (chunks : List Chunk) (vecs : List (List Int)) (r : Record)
    (h : r ∈ buildRecords model now d chunks vecs) :
    r.vectorKey = normalizeModelName model ∧
    r.payload.map Prod.fst = payloadFields ∧
    ∃ c, c ∈ chunks ∧
      r.payload.lookup ("document") = some (PayloadValue.str (String.mk c.text)) := by
  simp only [buildRecords, List.mem_map] at h
  obtain ⟨p, hp, hr⟩ := h
  obtain ⟨c, v⟩ := p
  subst hr
  refine ⟨rfl, rfl, c, (List.of_mem_zip hp).1, ?_⟩
  rfl

/-- Witness for claim C7 on a concrete single-chunk document. -/
theorem upserted_point_shape_witness :
    exRecordW.vectorKey = normalizeModelName ("text-embedding-004") ∧
    exRecordW.payload.map Prod.fst = payloadFields ∧
    ∃ c, c ∈ [exChunkW] ∧
      exRecordW.payload.lookup ("document") =
        some (PayloadValue.str (String.mk c.text)) :=
  upserted_point_shape ("text-embedding-004") 7 exDocSmall [exChunkW] [[0, 1]]
    exRecordW (by decide)

end Assistant

